import Mathlib

/-
Verification of the message correlation and dispatch engine of
`better-messages` (src/src/index.ts), centred on `makeCustomInternal`,
`makeCustom`, `makeCustomFactory` and `makeCustomStrict`.

The engine exchanges plain JS objects over a caller-supplied transport.
We embed the wire objects, the listener bodies and the envelope
construction as executable Lean functions, translated line by line from
the source.  JS values carried in the `msg` field are modelled by the
inductive `JSVal`; a pending `Promise` object is modelled by the
`JSVal.promise` constructor (the value it would eventually resolve to),
which lets us state faithfully that `onMessage` puts the handler result
into the response object without awaiting it (src line 476-482).
-/

set_option autoImplicit false

namespace BetterMessages

/-- JS runtime values exchanged over the transport.  `promise v` models a
Promise object that would eventually resolve to `v`; it is distinct from
the plain value `v`, exactly as a Promise object is distinct from its
resolution value in JS. -/
inductive JSVal where
  | num (n : Int)
  | str (s : String)
  | arr (xs : List JSVal)
  | promise (v : JSVal)
  | undef


/-- The wire object (`InternalCustom` in the source): fields `tag`,
`namespace`, `id`, `msg`, `response`.  JS objects may simply lack the
`namespace` key (the response literal at src lines 477-482 has none), so
the field is modelled as `Option String`, `none` meaning absent. -/
structure WireObject where
  tag : String
  «namespace» : Option String
  id : String
  msg : JSVal
  response : Bool


/-- Correlation id minting, src line 493:
`Date.now() + Math.floor(Math.random() * 1000) + ""` — numeric addition
of the timestamp and a random integer in [0, 999], then rendered to a
string by concatenation with `""`.  `now` models `Date.now()`, and
`rnd % 1000` models `Math.floor(Math.random() * 1000)`. -/
def mintId (now rnd : Nat) : String := toString (now + rnd % 1000)

/-- The request envelope built by `sendMessage` (src lines 490-496):
`{ tag, namespace, id, msg: message, response: false }`. -/
def requestEnvelope (ns tag : String) (message : List JSVal) (now rnd : Nat) : WireObject :=
  { tag := tag
    «namespace» := some ns
    id := mintId now rnd
    msg := JSVal.arr message
    response := false }

/-- The two registration forms accepted by `makeCustomInternal.onMessage`
(src lines 458-460): a single `(tag, handler)` pair or a handler table.
The table is modelled as an association list, mirroring a JS object keyed
by operation name.  The source spreads `message.msg` into the handler
(`handler(...message.msg)`); we model handlers uncurried, taking the raw
`msg` field (the argument array) directly. -/
inductive Registration where
  | single (tag : String) (handler : JSVal → JSVal)
  | table (handlers : List (String × (JSVal → JSVal)))

/-- Handler selection, src lines 464-474.  Single form: the source tests
`typeof args[0] === "string" && args[0] === message.tag` and uses
`args[1]`; when the tag differs, the else-branch indexes the tag string
itself (`handlers[message.tag]` with `handlers` the string), which yields
`undefined` for ordinary operation names — modelled as `none`.  Table
form: plain property lookup `handlers[message.tag]`. -/
def selectHandler : Registration → String → Option (JSVal → JSVal)
  | .single t h, tag => if t == tag then some h else none
  | .table hs, tag => hs.lookup tag

/-- Outcome of one invocation of a handler-dispatch listener: early
return, a thrown error, or a response object handed to `send`. -/
inductive ListenerOutcome where
  | ignored
  | threw (err : String)
  | responded (r : WireObject)


/-- The listener body attached by `makeCustomInternal.onMessage`
(src lines 462-483):
early return when `message.response || message.namespace !== namespace`;
then handler selection; `throw new Error("Unrecognized message")` when no
handler is found; otherwise the handler is invoked and
`send({ tag, msg: result, id, response: true })` — note the result is
placed in `msg` as returned, with no `await` and no `namespace` key. -/
def onMessageListen (ns : String) (reg : Registration) (message : WireObject) : ListenerOutcome :=
  if message.response || message.«namespace» != some ns then .ignored
  else
    match selectHandler reg message.tag with
    | none => .threw "Unrecognized message"
    | some handler =>
      .responded { tag := message.tag
                   «namespace» := none
                   id := message.id
                   msg := handler message.msg
                   response := true }

/-- The listener body attached by `makeCustomStrict.onMessage`
(src lines 619-632): identical to `onMessageListen` except the handler is
always found by table lookup. -/
def onMessageListenStrict (ns : String) (handlers : List (String × (JSVal → JSVal)))
    (message : WireObject) : ListenerOutcome :=
  if message.response || message.«namespace» != some ns then .ignored
  else
    match handlers.lookup message.tag with
    | none => .threw "Unrecognized message"
    | some handler =>
      .responded { tag := message.tag
                   «namespace» := none
                   id := message.id
                   msg := handler message.msg
                   response := true }

/-- State of one pending request: the `tag` and `id` captured by the
closure created in `sendMessage` (src lines 498-503), whether the
listener is still attached, and the resolution slot of the returned
promise. -/
structure PendingRequest where
  tag : String
  id : String
  attached : Bool
  result : Option JSVal


/-- Pending request immediately after `listen(listener)` in
`sendMessage`: listener attached, promise unresolved. -/
def initPending (tag id : String) : PendingRequest :=
  { tag := tag, id := id, attached := true, result := none }

/-- The match test of the response listener, src line 499:
`data.tag === tag && data.id === internal.id && data.response`.
No namespace test appears in the source. -/
def respListenerMatches (tag id : String) (data : WireObject) : Bool :=
  data.tag == tag && data.id == id && data.response

/-- JS promise resolution is at most once: `resolve` on an
already-resolved promise is a no-op. -/
def resolveOnce : Option JSVal → JSVal → Option JSVal
  | none, v => some v
  | some w, _ => some w

/-- Delivery of one inbound wire object to a pending request's listener
(src lines 498-503).  A detached listener observes nothing; an attached
one, on match, runs `unlisten(listener); resolve(data.msg)` — detach and
resolve in one step — and does nothing on non-match. -/
def deliver (p : PendingRequest) (data : WireObject) : PendingRequest :=
  if p.attached then
    if respListenerMatches p.tag p.id data then
      { p with attached := false, result := resolveOnce p.result data.msg }
    else p
  else p

/-- Sequential delivery of a list of inbound wire objects. -/
def deliverAll (p : PendingRequest) (ws : List WireObject) : PendingRequest :=
  ws.foldl deliver p

/-- Observable transport actions of one `sendMessage` call. -/
inductive Action where
  | listen
  | send (w : WireObject)


/-- Resolution state of the future returned by `sendMessage` right after
the Promise executor ran. -/
inductive FutureState where
  | pending
  | rejected (err : String)


/-- The body of `makeCustomInternal.sendMessage` (src lines 486-507):
build `internal` (§`requestEnvelope`), then run the Promise executor
`listen(listener); send(internal)`.  The transport `send` may throw
(`sendF` returns `Except`); the Promise constructor catches a synchronous
executor throw and rejects the promise, so a throwing `send` leaves the
listener attached and the future rejected.  Returns the action trace, the
pending-request state and the future's immediate state. -/
def sendMessageExec (sendF : WireObject → Except String Unit) (ns tag : String)
    (message : List JSVal) (now rnd : Nat) :
    List Action × PendingRequest × FutureState :=
  let internal := requestEnvelope ns tag message now rnd
  ( [Action.listen, Action.send internal]
  , initPending tag internal.id
  , match sendF internal with
    | .ok _ => FutureState.pending
    | .error e => FutureState.rejected e )

/-- The closure returned by the Proxy `get` trap of
`makeCustomStrict.createMessage` (src lines 658-670):
`(...message) => sendMessage(tag, ...message)`. -/
def createMessageGet (sendF : WireObject → Except String Unit) (ns tag : String) :
    List JSVal → Nat → Nat → List Action × PendingRequest × FutureState :=
  fun message now rnd => sendMessageExec sendF ns tag message now rnd

/-- The `CustomArgs` configuration (src lines 421-426); `listen` and
`unlisten` only attach and detach listeners, an effect already captured
by the `Action` trace and the `attached` flag, so the data carried by a
configuration is its fallible `send` and its `namespace`. -/
structure CustomArgs where
  send : WireObject → Except String Unit
  «namespace» : String

/-- The pair of operations returned by `makeCustomInternal`
(src lines 452-510), as their embedded behaviours. -/
structure CustomMessages where
  onMessage : Registration → WireObject → ListenerOutcome
  sendMessage : String → List JSVal → Nat → Nat → List Action × PendingRequest × FutureState

/-- `makeCustomInternal` (src lines 452-510). -/
def makeCustomInternal (sendF : WireObject → Except String Unit) (ns : String) : CustomMessages :=
  { onMessage := onMessageListen ns
    sendMessage := fun tag message now rnd => sendMessageExec sendF ns tag message now rnd }

/-- Result of `makeCustom` (src lines 533-552): either the bound
operations (immediate form) or a function awaiting the configuration
(deferred form). -/
inductive MakeCustomResult where
  | immediate (m : CustomMessages)
  | deferred (f : CustomArgs → CustomMessages)

/-- `makeCustom` (src lines 539-552): with a config, destructure it and
call `makeCustomInternal`; with no config, return a function doing the
same later. -/
def makeCustom : Option CustomArgs → MakeCustomResult
  | some config => .immediate (makeCustomInternal config.send config.«namespace»)
  | none => .deferred fun config => makeCustomInternal config.send config.«namespace»

/-- Extract the bound operations from either form of `makeCustom`,
supplying the configuration to the deferred form. -/
def MakeCustomResult.engine : MakeCustomResult → CustomArgs → CustomMessages
  | .immediate m, _ => m
  | .deferred f, config => f config

/-- The shape of a response object for stating correlation claims: the
literal sent at src lines 477-482 with a given payload. -/
def respWire (tag id : String) (v : JSVal) : WireObject :=
  { tag := tag, «namespace» := none, id := id, msg := v, response := true }

/- ------------------------------------------------------------------ -/
/- Helper lemmas                                                      -/
/- ------------------------------------------------------------------ -/

theorem deliver_detached (p : PendingRequest) (w : WireObject) (h : p.attached = false) :
    deliver p w = p := by
  simp [deliver, h]

theorem deliverAll_detached (p : PendingRequest) (ws : List WireObject) (h : p.attached = false) :
    deliverAll p ws = p := by
  induction ws with
  | nil => rfl
  | cons w ws ih =>
    show deliverAll (deliver p w) ws = p
    rw [deliver_detached p w h]
    exact ih

/- ------------------------------------------------------------------ -/
/- Claims                                                             -/
/- ------------------------------------------------------------------ -/

/-- C1: for a request sent by `sendMessage`, delivering any sequence of
inbound wire objects resolves the future at most once: the resolution
slot holds exactly the payload of the first object matching
(tag, correlationId, response = true), and the listener is detached from
the first match on, so later matching duplicates change nothing and
nothing throws (the listener body is total). -/
theorem C1_at_most_once (tag id : String) (ws : List WireObject) :
    (deliverAll (initPending tag id) ws).result
        = (ws.find? (respListenerMatches tag id)).map WireObject.msg
    ∧ (deliverAll (initPending tag id) ws).attached
        = (ws.find? (respListenerMatches tag id)).isNone := by
  induction ws with
  | nil => exact ⟨rfl, rfl⟩
  | cons w ws ih =>
    cases hb : respListenerMatches tag id w with
    | true =>
      have hst : deliver (initPending tag id) w
          = { tag := tag, id := id, attached := false, result := some w.msg } := by
        simp [deliver, initPending, hb, resolveOnce]
      constructor
      · show (deliverAll (deliver (initPending tag id) w) ws).result = _
        rw [hst, deliverAll_detached _ _ rfl, List.find?_cons_of_pos _ hb]
        rfl
      · show (deliverAll (deliver (initPending tag id) w) ws).attached = _
        rw [hst, deliverAll_detached _ _ rfl, List.find?_cons_of_pos _ hb]
        rfl
    | false =>
      have hst : deliver (initPending tag id) w = initPending tag id := by
        simp [deliver, initPending, hb]
      constructor
      · show (deliverAll (deliver (initPending tag id) w) ws).result = _
        rw [hst, List.find?_cons_of_neg _ (by simp [hb])]
        exact ih.1
      · show (deliverAll (deliver (initPending tag id) w) ws).attached = _
        rw [hst, List.find?_cons_of_neg _ (by simp [hb])]
        exact ih.2

/-- C5: for two outstanding requests with the same operation but distinct
correlation ids A and B, delivering a response wire object carrying id A
resolves only A's future, with that object's `msg`; B's listener stays
attached and its future pending; and a response for B delivered first
does not disturb A's eventual resolution (matching is by the
(tag, id, response) fields, not arrival order). -/
theorem C5_exact_correlation (tag idA idB : String) (vA vB : JSVal) (h : idA ≠ idB) :
    (deliver (initPending tag idA) (respWire tag idA vA)).result = some vA
    ∧ deliver (initPending tag idB) (respWire tag idA vA) = initPending tag idB
    ∧ (deliverAll (initPending tag idA) [respWire tag idB vB, respWire tag idA vA]).result
        = some vA := by
  have hAB' : (idA == idB) = false := beq_eq_false_iff_ne.mpr h
  have hBA' : (idB == idA) = false := beq_eq_false_iff_ne.mpr (Ne.symm h)
  refine ⟨?_, ?_, ?_⟩
  · simp [deliver, initPending, respWire, respListenerMatches, resolveOnce]
  · simp [deliver, initPending, respWire, respListenerMatches, hAB']
  · show (deliver (deliver (initPending tag idA) (respWire tag idB vB))
        (respWire tag idA vA)).result = some vA
    have h1 : deliver (initPending tag idA) (respWire tag idB vB) = initPending tag idA := by
      simp [deliver, initPending, respWire, respListenerMatches, hBA']
    rw [h1]
    simp [deliver, initPending, respWire, respListenerMatches, resolveOnce]

/-- C5 witness at concrete inputs: operation "t", ids "1" and "2". -/
theorem C5_exact_correlation_witness :
    (deliver (initPending "t" "1") (respWire "t" "1" (JSVal.num 1))).result
        = some (JSVal.num 1)
    ∧ deliver (initPending "t" "2") (respWire "t" "1" (JSVal.num 1)) = initPending "t" "2"
    ∧ (deliverAll (initPending "t" "1")
        [respWire "t" "2" (JSVal.num 2), respWire "t" "1" (JSVal.num 1)]).result
        = some (JSVal.num 1) :=
  C5_exact_correlation "t" "1" "2" (JSVal.num 1) (JSVal.num 2) (by decide)

/-- C2 counterexample: the response-matching path of `sendMessage` does
not discard envelopes with a foreign namespace.  The engine configured
with namespace "mine" sends a request; a wire object carrying
namespace "other" (different from "mine") but matching tag, correlation
id and response = true resolves the pending future, contradicting the
claim that every dispatch path discards mismatched-namespace envelopes
before any other check. -/
theorem C2_namespace_counterexample :
    (requestEnvelope "mine" "op" [] 100 5).«namespace» = some "mine"
    ∧ (some "other" : Option String) ≠ some "mine"
    ∧ (deliver (initPending "op" (requestEnvelope "mine" "op" [] 100 5).id)
        { tag := "op", «namespace» := some "other",
          id := (requestEnvelope "mine" "op" [] 100 5).id,
          msg := JSVal.num 3, response := true }).result = some (JSVal.num 3) :=
  ⟨rfl, by decide, rfl⟩

/-- C2 amended: the handler-selection paths of `makeCustomInternal` and
`makeCustomStrict` discard an envelope whose namespace field differs from
the engine's configured namespace before any other check (no handler
invoked, nothing sent, no throw); the response-matching path of a pending
`sendMessage` never inspects the namespace field — its outcome is
unchanged under any rewrite of that field — matching solely on
(tag, id, response).  Hence engines with different namespaces never
invoke each other's handlers, while isolation of their pending futures
rests on correlation-id distinctness rather than on a namespace check. -/
theorem C2_amended_namespace :
    (∀ (ns : String) (reg : Registration) (w : WireObject),
        w.«namespace» ≠ some ns → onMessageListen ns reg w = .ignored)
    ∧ (∀ (ns : String) (handlers : List (String × (JSVal → JSVal))) (w : WireObject),
        w.«namespace» ≠ some ns → onMessageListenStrict ns handlers w = .ignored)
    ∧ (∀ (p : PendingRequest) (w : WireObject) (nsf : Option String),
        deliver p { w with «namespace» := nsf } = deliver p w) := by
  refine ⟨?_, ?_, fun p w nsf => rfl⟩
  · intro ns reg w h
    have hb : (w.«namespace» != some ns) = true := bne_iff_ne.mpr h
    simp [onMessageListen, hb]
  · intro ns handlers w h
    have hb : (w.«namespace» != some ns) = true := bne_iff_ne.mpr h
    simp [onMessageListenStrict, hb]

/-- C2 amended witness at concrete inputs: a request carrying namespace
"other" is ignored by both listener forms of an engine configured with
namespace "mine". -/
theorem C2_amended_namespace_witness :
    onMessageListen "mine" (.single "op" (fun v => v))
      { tag := "op", «namespace» := some "other", id := "1",
        msg := JSVal.arr [], response := false } = .ignored
    ∧ onMessageListenStrict "mine" []
      { tag := "op", «namespace» := some "other", id := "1",
        msg := JSVal.arr [], response := false } = .ignored :=
  ⟨C2_amended_namespace.1 "mine" _ _ (by decide),
   C2_amended_namespace.2.1 "mine" _ _ (by decide)⟩

/-- C3: evaluation at the failing input.  A request envelope with a
matching namespace whose operation is covered by no handler of the
registration — single form with a different tag, and table form with a
missing key — makes the listener of `makeCustomInternal.onMessage` throw
`Error("Unrecognized message")` (src line 475) instead of the silent
no-op the claim requires. -/
theorem C3_unhandled_throws :
    onMessageListen "n" (.single "foo" (fun v => v))
      { tag := "bar", «namespace» := some "n", id := "1",
        msg := JSVal.arr [], response := false }
      = .threw "Unrecognized message"
    ∧ onMessageListen "n" (.table [("foo", fun v => v)])
      { tag := "bar", «namespace» := some "n", id := "1",
        msg := JSVal.arr [], response := false }
      = .threw "Unrecognized message" :=
  ⟨rfl, rfl⟩

/-- C4: evaluation at the failing input.  A handler returning a pending
Promise of 7 makes `onMessage` send a response whose `msg` is the raw
Promise object (no await, src lines 476-482), while a handler returning
the plain 7 sends `msg = 7`; the two response objects differ, so sync and
async handlers are not observably identical as the claim requires. -/
theorem C4_promise_not_awaited :
    onMessageListen "n" (.single "f" (fun _ => JSVal.promise (JSVal.num 7)))
      { tag := "f", «namespace» := some "n", id := "1",
        msg := JSVal.arr [], response := false }
      = .responded { tag := "f", «namespace» := none, id := "1",
                     msg := JSVal.promise (JSVal.num 7), response := true }
    ∧ onMessageListen "n" (.single "f" (fun _ => JSVal.num 7))
      { tag := "f", «namespace» := some "n", id := "1",
        msg := JSVal.arr [], response := false }
      = .responded { tag := "f", «namespace» := none, id := "1",
                     msg := JSVal.num 7, response := true }
    ∧ JSVal.promise (JSVal.num 7) ≠ JSVal.num 7 :=
  ⟨rfl, rfl, fun h => JSVal.noConfusion h⟩

/-- C6 counterexample: a transport `send` that throws makes the future
returned by `sendMessage` rejected — the Promise constructor converts the
executor's synchronous throw into a rejection — contradicting the claim
that the future is not rejected on a send failure. -/
theorem C6_send_failure_counterexample :
    (sendMessageExec (fun _ => .error "boom") "n" "f" [] 100 5).2.2
        = FutureState.rejected "boom"
    ∧ FutureState.rejected "boom" ≠ FutureState.pending :=
  ⟨rfl, fun h => FutureState.noConfusion h⟩

/-- C6 amended: if the Transport Adapter's `send` throws when invoked by
`sendMessage`, the returned future is rejected with the thrown error (the
Promise executor's throw becomes a rejection), and the already-attached
response listener remains attached. -/
theorem C6_send_failure_amended (sendF : WireObject → Except String Unit)
    (ns tag : String) (message : List JSVal) (now rnd : Nat) (err : String)
    (h : sendF (requestEnvelope ns tag message now rnd) = .error err) :
    (sendMessageExec sendF ns tag message now rnd).2.1.attached = true
    ∧ (sendMessageExec sendF ns tag message now rnd).2.2 = FutureState.rejected err := by
  constructor
  · rfl
  · simp [sendMessageExec, h]

/-- C6 amended witness at concrete inputs: a send that always throws
"boom" leaves the listener attached and the future rejected. -/
theorem C6_send_failure_amended_witness :
    (sendMessageExec (fun _ => .error "boom") "n" "f" [] 100 5).2.1.attached = true
    ∧ (sendMessageExec (fun _ => .error "boom") "n" "f" [] 100 5).2.2
        = FutureState.rejected "boom" :=
  C6_send_failure_amended (fun _ => .error "boom") "n" "f" [] 100 5 "boom" rfl

/-- C7: the outbound request envelope of `sendMessage` has
`response = false`, the given tag, the given payload tuple as `msg`, the
engine's namespace, and an id minted by numerically combining the current
timestamp with the bounded random component and rendering the sum to a
string; and the action trace shows the response listener attached
(`listen`) before `send` is invoked with this envelope. -/
theorem C7_request_envelope (ns tag : String) (message : List JSVal) (now rnd : Nat)
    (sendF : WireObject → Except String Unit) :
    (requestEnvelope ns tag message now rnd).response = false
    ∧ (requestEnvelope ns tag message now rnd).tag = tag
    ∧ (requestEnvelope ns tag message now rnd).msg = JSVal.arr message
    ∧ (requestEnvelope ns tag message now rnd).«namespace» = some ns
    ∧ (requestEnvelope ns tag message now rnd).id = toString (now + rnd % 1000)
    ∧ (sendMessageExec sendF ns tag message now rnd).1
        = [Action.listen, Action.send (requestEnvelope ns tag message now rnd)] :=
  ⟨rfl, rfl, rfl, rfl, rfl, rfl⟩

/-- C8: the closure the `createMessage` Proxy returns for property `tag`
behaves exactly as `sendMessage tag ...` on the same engine — same action
trace, same pending request, same future — and every invocation performs
a fresh send of a freshly built request envelope. -/
theorem C8_createMessage_delegates (sendF : WireObject → Except String Unit)
    (ns tag : String) (message : List JSVal) (now rnd : Nat) :
    createMessageGet sendF ns tag message now rnd
        = sendMessageExec sendF ns tag message now rnd
    ∧ (createMessageGet sendF ns tag message now rnd).1
        = [Action.listen, Action.send (requestEnvelope ns tag message now rnd)] :=
  ⟨rfl, rfl⟩

/-- C9: `makeCustom` called with no Transport Adapter returns a function
which, applied later to a configuration, yields operations equal to those
`makeCustom` returns when called immediately with that configuration. -/
theorem C9_deferred_equals_immediate (config : CustomArgs) :
    (makeCustom none).engine config = (makeCustom (some config)).engine config :=
  rfl

/-- C10: every response object sent by the handler-dispatch path of
`makeCustomInternal.onMessage` or `makeCustomStrict.onMessage` carries
`response = true`, the request's tag and correlation id, and no namespace
field (modelled as `none`), unlike the request envelopes built by
`sendMessage`, whose namespace field is present (`some ns`). -/
theorem C10_response_shape (ns : String) (reg : Registration)
    (handlers : List (String × (JSVal → JSVal))) (w r : WireObject) :
    (onMessageListen ns reg w = .responded r →
      r.«namespace» = none ∧ r.response = true ∧ r.tag = w.tag ∧ r.id = w.id)
    ∧ (onMessageListenStrict ns handlers w = .responded r →
      r.«namespace» = none ∧ r.response = true ∧ r.tag = w.tag ∧ r.id = w.id)
    ∧ (∀ (message : List JSVal) (now rnd : Nat),
        (requestEnvelope ns w.tag message now rnd).«namespace» = some ns) := by
  refine ⟨?_, ?_, fun message now rnd => rfl⟩
  · intro h
    unfold onMessageListen at h
    split at h
    · exact absurd h (fun hc => ListenerOutcome.noConfusion hc)
    · cases hsel : selectHandler reg w.tag with
      | none =>
        rw [hsel] at h
        exact absurd h (fun hc => ListenerOutcome.noConfusion hc)
      | some handler =>
        rw [hsel] at h
        cases h
        exact ⟨rfl, rfl, rfl, rfl⟩
  · intro h
    unfold onMessageListenStrict at h
    split at h
    · exact absurd h (fun hc => ListenerOutcome.noConfusion hc)
    · cases hsel : handlers.lookup w.tag with
      | none =>
        rw [hsel] at h
        exact absurd h (fun hc => ListenerOutcome.noConfusion hc)
      | some handler =>
        rw [hsel] at h
        cases h
        exact ⟨rfl, rfl, rfl, rfl⟩

/-- Concrete request used by the C10 witness: tag "f", namespace "n",
correlation id "1". -/
def sampleRequest : WireObject :=
  { tag := "f", «namespace» := some "n", id := "1",
    msg := JSVal.arr [], response := false }

/-- Concrete response object the engine sends for `sampleRequest` under
the identity handler. -/
def sampleResponse : WireObject := respWire "f" "1" (JSVal.arr [])

/-- C10 witness at concrete inputs: a handled request with tag "f" and id
"1" yields a response object with no namespace field, response = true,
and the request's tag and id, in both listener forms. -/
theorem C10_response_shape_witness :
    (sampleResponse.«namespace» = none ∧ sampleResponse.response = true
      ∧ sampleResponse.tag = sampleRequest.tag ∧ sampleResponse.id = sampleRequest.id)
    ∧ (sampleResponse.«namespace» = none ∧ sampleResponse.response = true
      ∧ sampleResponse.tag = sampleRequest.tag ∧ sampleResponse.id = sampleRequest.id) :=
  ⟨(C10_response_shape "n" (.single "f" (fun v => v)) [("f", fun v => v)]
      sampleRequest sampleResponse).1 rfl,
   (C10_response_shape "n" (.single "f" (fun v => v)) [("f", fun v => v)]
      sampleRequest sampleResponse).2.1 rfl⟩

end BetterMessages
